import Mathlib

/-!
Shallow embedding of `src/generate_sample_zkb_statement.py`.

The script draws a fixed bank-statement table onto a reportlab canvas and
prints a summary.  We model the canvas as the list of drawing primitives it
receives, in order.

Unit conventions of the embedding:

* Coordinates.  reportlab measures in points; `A4 = (210*mm, 297*mm)` with
  `mm = 72/25.4 = 360/127` points.  To keep every coordinate an exact integer
  we work in units of 1/127 point: `pt = 127`, `mm = 360`, so a source
  coordinate such as `height - 60` is embedded as `height - 60 * pt`.
  Scaling by the positive constant 127 preserves every equality and order
  comparison the script makes.

* Money.  The script's decimal amounts (e.g. `-7500.00`) are embedded in
  Rappen/cents as integers (e.g. `-750000`); the Python format `:,.2f`
  on such a value prints the cents with two decimals and comma grouping.

* The generation timestamp `datetime.now().strftime(..)` is the parameter
  `today`; everything else in the run is fixed.
-/

set_option maxRecDepth 100000

namespace ZKB

/-- A reportlab canvas primitive, as issued by the script. -/
inductive Op where
  | setFont (font : String) (size : ℤ)
  | drawString (x y : ℤ) (s : String)
  | drawRightString (x y : ℤ) (s : String)
  | line (x1 y1 x2 y2 : ℤ)
  | showPage
  | save (filename : String)
deriving DecidableEq

/-- One entry of the script's `transactions` list: date, description and the
signed amount in cents. -/
structure Txn where
  date : String
  description : String
  amountCents : ℤ
deriving DecidableEq

/-- One point, in embedding units (1/127 point). -/
def pt : ℤ := 127

/-- One millimetre: 72/25.4 points, i.e. 360/127 points, i.e. 360 units. -/
def mm : ℤ := 360

/-- A4 width, `210*mm` (line 22, `width, height = A4`). -/
def width : ℤ := 210 * mm

/-- A4 height, `297*mm`. -/
def height : ℤ := 297 * mm

/-- The apostrophe character, `chr 39`. -/
def apos : Char := Char.ofNat 39

/-- Default output filename (line 18). -/
def defaultFilename : String := "ZKB_Sample_Statement_January_2026.pdf"

/-- The hard-coded transaction list (lines 61–95), amounts in cents.
`"McDonald's Zürich"` is spelled out in characters because of the
apostrophe it contains. -/
def transactions : List Txn := [
  ⟨"31.01.2026", "Lohnzahlung Januar 2026", -750000⟩,
  ⟨"30.01.2026", "Miete Wohnung Zürich", 185000⟩,
  ⟨"29.01.2026", "CSS Krankenkasse Prämie", 45690⟩,
  ⟨"28.01.2026", "COOP Zürich, Kaufvertrag", 8945⟩,
  ⟨"28.01.2026", "Migros Oerlikon, Einkauf", 6780⟩,
  ⟨"27.01.2026", "SBB Monatsabo Zone 110", 8900⟩,
  ⟨"26.01.2026", "Swisscom AG Rechnung", 7900⟩,
  ⟨"25.01.2026", "Restaurant Kronenhalle", 12550⟩,
  ⟨"24.01.2026", "Denner Zürich HB", 3420⟩,
  ⟨"23.01.2026", "VBZ Tram/Bus Ticket", 1240⟩,
  ⟨"22.01.2026", "Manor Zürich, Kleidung", 18790⟩,
  ⟨"21.01.2026", "Spotify Premium", 1295⟩,
  ⟨"20.01.2026", "Netflix Abonnement", 1790⟩,
  ⟨"19.01.2026", "COOP Zürich Bahnhofstrasse", 5630⟩,
  ⟨"18.01.2026", "Migros Basel, Wocheneinkauf", 14375⟩,
  ⟨"17.01.2026", "Starbucks Zürich HB", 850⟩,
  ⟨"16.01.2026", String.mk ['M', 'c', 'D', 'o', 'n', 'a', 'l', 'd', Char.ofNat 39, 's', ' ', 'Z', 'ü', 'r', 'i', 'c', 'h'], 1540⟩,
  ⟨"15.01.2026", "Helsana Krankenkasse Zusatz", 12350⟩,
  ⟨"14.01.2026", "EWZ Stromrechnung", 14500⟩,
  ⟨"13.01.2026", "Digitec Galaxus AG", 23490⟩,
  ⟨"12.01.2026", "Amazon EU S.à r.l.", 6745⟩,
  ⟨"11.01.2026", "COOP Zürich Seefeld", 4520⟩,
  ⟨"10.01.2026", "Migros Zürich City", 7890⟩,
  ⟨"09.01.2026", "SBB Billett Zürich-Bern", 5200⟩,
  ⟨"08.01.2026", "Mobility Carsharing", 8900⟩,
  ⟨"07.01.2026", "Parkhaus Zürich HB", 2400⟩,
  ⟨"06.01.2026", "Zalando SE", 14580⟩,
  ⟨"05.01.2026", "IKEA Zürich", 26750⟩,
  ⟨"04.01.2026", "Coop Bau+Hobby", 8990⟩,
  ⟨"03.01.2026", "Apotheke am Central", 3450⟩,
  ⟨"02.01.2026", "Fitness First Zürich", 9900⟩,
  ⟨"01.01.2026", "Jahresgebühr Konto", 6000⟩]

/-- Two-decimal fractional part, zero-padded, as Python `.2f` prints it. -/
def twoDigits (n : ℕ) : String :=
  if n < 10 then "0" ++ Nat.repr n else Nat.repr n

/-- Insert a comma after every three characters (used on the reversed digit
string, so the grouping counts from the rightmost digit). -/
def chunk3Rev : List Char → List Char
  | [] => []
  | [a] => [a]
  | [a, b] => [a, b]
  | [a, b, c] => [a, b, c]
  | a :: b :: c :: rest => a :: b :: c :: ',' :: chunk3Rev rest

/-- Comma-group a natural number every three digits from the right,
as Python's `,` format flag does. -/
def commaGroup (n : ℕ) : String :=
  String.mk ((chunk3Rev (Nat.repr n).data.reverse).reverse)

/-- Python `f"{v:,.2f}"` on a nonnegative decimal value given in cents. -/
def pyFormatCommaNat (cents : ℕ) : String :=
  commaGroup (cents / 100) ++ "." ++ twoDigits (cents % 100)

/-- Python `f"{v:,.2f}"` on a signed decimal value given in cents. -/
def pyFormatComma (c : ℤ) : String :=
  (if c < 0 then "-" else "") ++ pyFormatCommaNat c.natAbs

/-- Python `s.replace(",", chr 39)`. -/
def pyReplaceCommaApos (s : String) : String :=
  String.mk (s.data.map fun ch => if ch = ',' then apos else ch)

/-- Amount rendering of lines 108–113: negative amounts are shown as their
absolute value, both branches format with two decimals, comma grouping, and
then replace commas by apostrophes. -/
def amount_str (amount : ℤ) : String :=
  if amount < 0 then pyReplaceCommaApos (pyFormatComma |amount|)
  else pyReplaceCommaApos (pyFormatComma amount)

/-- Python `description[:45]` (line 105): the first 45 characters. -/
def pySlice45 (s : String) : String := String.mk (s.data.take 45)

/-- `total_income` (line 127): sum of `abs(amt)` over negative amounts. -/
def total_income : ℤ :=
  ((transactions.filter fun t => t.amountCents < 0).map fun t => |t.amountCents|).sum

/-- `total_expenses` (line 128): sum over positive amounts. -/
def total_expenses : ℤ :=
  ((transactions.filter fun t => t.amountCents > 0).map fun t => t.amountCents).sum

/-- `final_balance` (line 129). -/
def final_balance : ℤ := total_income - total_expenses

/-- `balance_str` (line 131): `f"CHF {final_balance:,.2f}".replace(",", chr 39)`. -/
def balance_str : String :=
  pyReplaceCommaApos ("CHF " ++ pyFormatComma final_balance)

/-- Header block, lines 25–44. -/
def headerOps (today : String) : List Op := [
  .setFont "Helvetica-Bold" 18,
  .drawString (40 * pt) (height - 60 * pt) "Zürcher Kantonalbank",
  .setFont "Helvetica" 10,
  .drawString (40 * pt) (height - 80 * pt) "Bahnhofstrasse 9",
  .drawString (40 * pt) (height - 95 * pt) "8001 Zürich",
  .setFont "Helvetica-Bold" 12,
  .drawString (40 * pt) (height - 130 * pt) "Kontoauszug / Account Statement",
  .setFont "Helvetica" 10,
  .drawString (40 * pt) (height - 150 * pt) "Konto / Account: CH93 0070 0110 0012 3456 7",
  .drawString (40 * pt) (height - 165 * pt) "Periode / Period: 01.01.2026 - 31.01.2026",
  .drawString (40 * pt) (height - 180 * pt) ("Erstellt / Created: " ++ today),
  .drawString (width - 200 * pt) (height - 150 * pt) "Max Mustermann",
  .drawString (width - 200 * pt) (height - 165 * pt) "Musterstrasse 123",
  .drawString (width - 200 * pt) (height - 180 * pt) "8000 Zürich"]

/-- `y = height - 220` (line 47), the table-header row position. -/
def tableStartY : ℤ := height - 220 * pt

/-- Table header and separator, lines 48–58. -/
def tableHeaderOps : List Op := [
  .setFont "Helvetica-Bold" 9,
  .drawString (40 * pt) tableStartY "Datum",
  .drawString (100 * pt) tableStartY "Buchungstext",
  .drawString (width - 120 * pt) tableStartY "Betrag CHF",
  .line (40 * pt) (tableStartY - 5 * pt) (width - 40 * pt) (tableStartY - 5 * pt),
  .setFont "Helvetica" 9]

/-- Cursor position of the first transaction row: `y -= 25` (line 57). -/
def firstRowY : ℤ := tableStartY - 25 * pt

/-- The three primitives one record row emits (lines 104–115). -/
def rowDraws (t : Txn) (y : ℤ) : List Op := [
  .drawString (40 * pt) y t.date,
  .drawString (100 * pt) y (pySlice45 t.description),
  .drawRightString (width - 40 * pt) y (amount_str t.amountCents)]

/-- One iteration of the record loop (lines 97–117): page-break check,
row draw, cursor advance `y -= 15`. -/
def rowStep (t : Txn) (y : ℤ) : List Op × ℤ :=
  let p := if y < 100 * pt then ([Op.showPage, Op.setFont "Helvetica" 9], height - 60 * pt)
    else ([], y)
  (p.1 ++ rowDraws t p.2, p.2 - 15 * pt)

/-- The whole record loop: emitted primitives and final cursor. -/
def processTxns : List Txn → ℤ → List Op × ℤ
  | [], y => ([], y)
  | t :: ts, y =>
    let p := rowStep t y
    let q := processTxns ts p.2
    (p.1 ++ q.1, q.2)

/-- The record loop of this run, started at `firstRowY`. -/
def loopOut : List Op × ℤ := processTxns transactions firstRowY

/-- Footer: separator, balance row and disclaimer, lines 119–138;
`y` is the cursor left by the loop. -/
def footerOps (y : ℤ) : List Op := [
  .line (40 * pt) (y - 10 * pt) (width - 40 * pt) (y - 10 * pt),
  .setFont "Helvetica-Bold" 10,
  .drawString (40 * pt) (y - 25 * pt) "Saldo / Balance:",
  .drawRightString (width - 40 * pt) (y - 25 * pt) balance_str,
  .setFont "Helvetica" 7,
  .drawString (40 * pt) (y - 65 * pt) "Zürcher Kantonalbank - Alle Angaben ohne Gewähr",
  .drawString (40 * pt) (y - 75 * pt) "Bitte prüfen Sie die Angaben und melden Sie Unstimmigkeiten innert 30 Tagen."]

/-- The full canvas trace of `create_zkb_statement` (lines 18–140), ending in
`c.save()` on the canvas opened on `filename`. -/
def create_zkb_statement (today filename : String) : List Op :=
  headerOps today ++ tableHeaderOps ++ loopOut.1 ++ footerOps loopOut.2 ++ [Op.save filename]

/-- The summary printed to stdout (lines 143–150), one string per print call. -/
def summaryStdout (filename : String) : List String := [
  "✅ Created: " ++ filename,
  "\nStatement Summary:",
  "  Period: January 2026",
  "  Transactions: " ++ Nat.repr transactions.length,
  pyReplaceCommaApos ("  Total Income: CHF " ++ pyFormatComma total_income),
  pyReplaceCommaApos ("  Total Expenses: CHF " ++ pyFormatComma total_expenses),
  pyReplaceCommaApos ("  Final Balance: CHF " ++ pyFormatComma final_balance),
  "\nUse this PDF to test the ZüriBudget app!"]

/-- What the remediation branch of the guard would print (lines 159–161). -/
def remediationStdout : List String := [
  "❌ Error: reportlab not installed",
  "\nInstall it with:",
  "  pip3 install reportlab"]

/-- Observable outcome of one process run: exit status, stdout lines, and the
primitives drawn on the canvas. -/
structure RunResult where
  exitCode : ℕ
  stdout : List String
  ops : List Op
deriving DecidableEq

/-- A Python `from reportlab... import ...` statement: succeeds iff the
reportlab package is installed. -/
def importReportlab (avail : Bool) : Except String Unit :=
  if avail then Except.ok () else Except.error "ModuleNotFoundError"

/-- The `__main__` block (lines 153–164): re-import reportlab inside
`try/except`, print the remediation text and exit 1 on ImportError, otherwise
run `create_zkb_statement()` and finish with status 0. -/
def pyMainBlock (avail : Bool) (today : String) : RunResult :=
  match importReportlab avail with
  | Except.error _ => ⟨1, remediationStdout, []⟩
  | Except.ok _ => ⟨0, summaryStdout defaultFilename, create_zkb_statement today defaultFilename⟩

/-- A whole process run.  The module-level imports (lines 12–16) execute
before the `__main__` block ever starts; when reportlab is missing they raise
an uncaught ImportError, so the interpreter exits with status 1 printing only
a traceback to stderr — nothing on stdout, nothing drawn. -/
def runScript (avail : Bool) (today : String) : RunResult :=
  match importReportlab avail with
  | Except.error _ => ⟨1, [], []⟩
  | Except.ok _ => pyMainBlock avail today

/-- Is this primitive the finalizing `save`? -/
def Op.isSave : Op → Bool
  | .save _ => true
  | _ => false

/-- Is this primitive a page break? -/
def Op.isShowPage : Op → Bool
  | .showPage => true
  | _ => false

/-- Does this primitive draw (text or line) strictly below height `c`? -/
def Op.drawsBelow (c : ℤ) : Op → Bool
  | .drawString _ y _ => decide (y < c)
  | .drawRightString _ y _ => decide (y < c)
  | .line _ y1 _ y2 => decide (y1 < c) || decide (y2 < c)
  | _ => false

/-- Extract the text of a draw in the date column (x = 40). -/
def dateOf : Op → Option String
  | .drawString x _ s => if x = 40 * pt then some s else none
  | _ => none

/-- Is this a draw in the date column? -/
def isDateColumnDraw : Op → Bool
  | .drawString x _ _ => decide (x = 40 * pt)
  | _ => false

/-- A right-aligned amount draw on or above the 100-point margin: the amount
cell of a transaction row. -/
def isRowAmountDraw : Op → Bool
  | .drawRightString _ y _ => decide (100 * pt ≤ y)
  | _ => false

/-- A right-aligned amount draw below the 100-point margin: the balance cell. -/
def isBalanceDraw : Op → Bool
  | .drawRightString _ y _ => decide (y < 100 * pt)
  | _ => false

end ZKB

namespace ZKB

/-- Helper: one row's primitives contain exactly one date-column draw, whose
text is the record's date. -/
theorem dateOf_rowDraws (t : Txn) (y : ℤ) :
    (rowDraws t y).filterMap dateOf = [t.date] := rfl

/-- C1: for the fixed 32-record list, `total_income` is 7500.00 CHF
(750000 cents), `total_expenses` is the sum of the positive amounts
(4803.60 CHF), `final_balance` is exactly their difference (2696.40 CHF,
no rounding in the arithmetic), and rounded two-decimal formatting appears
only in the displayed string. -/
theorem C1_totals_and_balance :
    total_income = 750000 ∧
    total_expenses = 480360 ∧
    final_balance = total_income - total_expenses ∧
    final_balance = 269640 ∧
    balance_str = String.mk ['C', 'H', 'F', ' ', '2', Char.ofNat 39, '6', '9', '6', '.', '4', '0'] :=
  ⟨by decide, by decide, rfl, by decide, by decide⟩

/-- C2 counterexample: the run does draw below the 100-unit margin without
starting a new page: the balance label is drawn at y = 11670 units
(= 11670/127 ≈ 91.9 points < 100 points) and no `showPage` precedes it. -/
theorem C2_threshold_counterexample :
    (create_zkb_statement "01.02.2026" defaultFilename).any (Op.drawsBelow (100 * pt)) = true ∧
    (create_zkb_statement "01.02.2026" defaultFilename)[118]? =
      some (Op.drawString (40 * pt) 11670 "Saldo / Balance:") ∧
    (11670 : ℤ) < 100 * pt ∧
    (create_zkb_statement "01.02.2026" defaultFilename).countP Op.isShowPage = 0 :=
  ⟨by decide, by decide, by decide, by decide⟩

/-- C2 amended: the margin threshold is enforced only for the transaction-row
draws of the record loop (none of which goes below 100 points in this run);
the closing separator stays above the margin (13575 units ≈ 106.9 points),
but the balance label, the balance value and the two disclaimer lines are
drawn below 100 points (11670, 11670, 6590, 5320 units) and no new page is
ever started. -/
theorem C2_threshold_amended : ∀ today : String,
    loopOut.1.all (fun op => !Op.drawsBelow (100 * pt) op) = true ∧
    (create_zkb_statement today defaultFilename).countP Op.isShowPage = 0 ∧
    (create_zkb_statement today defaultFilename).countP (Op.drawsBelow (100 * pt)) = 4 ∧
    (create_zkb_statement today defaultFilename)[116]? =
      some (Op.line (40 * pt) 13575 (width - 40 * pt) 13575) ∧
    (100 * pt : ℤ) ≤ 13575 :=
  fun _ => ⟨by decide, rfl, rfl, rfl, by decide⟩

/-- C3: when reportlab is missing the process does exit with status 1, but
the module-level import (line 12) raises before the `__main__` guard is
reached, so the remediation message is never printed (only an interpreter
traceback appears); with reportlab present the run exits with status 0. -/
theorem C3_missing_dependency_behavior : ∀ today : String,
    runScript false today = ⟨1, [], []⟩ ∧
    (runScript false today).stdout ≠ remediationStdout ∧
    (runScript true today).exitCode = 0 ∧
    pyMainBlock false today = ⟨1, remediationStdout, []⟩ :=
  fun _ => ⟨rfl, by show ([] : List String) ≠ remediationStdout; decide, rfl, rfl⟩

/-- C4: the rendered amount string is always the two-decimal, apostrophe-
grouped, unsigned formatting of the absolute value; 1850.00 renders as
1'850.00 and 89.45 as 89.45; every row's amount cell draws `amount_str`. -/
theorem C4_amount_formatting :
    (∀ amount : ℤ, amount_str amount = pyReplaceCommaApos (pyFormatComma |amount|)) ∧
    amount_str 185000 = String.mk ['1', Char.ofNat 39, '8', '5', '0', '.', '0', '0'] ∧
    amount_str 8945 = String.mk ['8', '9', '.', '4', '5'] ∧
    (∀ (t : Txn) (y : ℤ), (rowDraws t y)[2]? =
      some (Op.drawRightString (width - 40 * pt) y (amount_str t.amountCents))) := by
  refine ⟨?_, by decide, by decide, fun t y => rfl⟩
  intro amount
  by_cases h : amount < 0
  · simp [amount_str, h]
  · simp [amount_str, h, abs_of_nonneg (not_lt.mp h)]

/-- C5: the record loop keeps the input order (the date-column draws it emits
are exactly the dates of the records, in order, for any record list and any
start cursor), and each iteration first checks the cursor against the
100-point threshold: if below, it breaks the page and resets the cursor to
`height - 60` with only a font reset, then draws the row and advances the
cursor down by 15 points. -/
theorem C5_loop_order_and_pagebreak :
    (∀ (ts : List Txn) (y : ℤ), (processTxns ts y).1.filterMap dateOf = ts.map Txn.date) ∧
    (∀ (t : Txn) (y : ℤ), rowStep t y =
      ((if y < 100 * pt then [Op.showPage, Op.setFont "Helvetica" 9] else []) ++
        rowDraws t (if y < 100 * pt then height - 60 * pt else y),
       (if y < 100 * pt then height - 60 * pt else y) - 15 * pt)) := by
  constructor
  · intro ts
    induction ts with
    | nil => intro y; rfl
    | cons t ts ih =>
      intro y
      rw [show processTxns (t :: ts) y =
        ((rowStep t y).1 ++ (processTxns ts (rowStep t y).2).1,
          (processTxns ts (rowStep t y).2).2) from rfl]
      rw [List.filterMap_append, ih]
      by_cases h : y < 100 * pt
      · simp [rowStep, h, dateOf_rowDraws, dateOf]
      · simp [rowStep, h, dateOf_rowDraws]
  · intro t y
    by_cases h : y < 100 * pt
    · simp [rowStep, h]
    · simp [rowStep, h]

/-- C6: the drawn description is the first 45 characters of the record's
description: a description of more than 45 characters is cut to exactly 45
(nothing appended), a description of at most 45 characters is unchanged. -/
theorem C6_description_truncation :
    (∀ (t : Txn) (y : ℤ), (rowDraws t y)[1]? =
      some (Op.drawString (100 * pt) y (pySlice45 t.description))) ∧
    (∀ s : String, (pySlice45 s).data = s.data.take 45) ∧
    (∀ s : String, 45 ≤ s.data.length → (pySlice45 s).data.length = 45) ∧
    (∀ s : String, s.data.length ≤ 45 → pySlice45 s = s) := by
  refine ⟨fun t y => rfl, fun s => rfl, fun s h => ?_, fun s h => ?_⟩
  · show (s.data.take 45).length = 45
    rw [List.length_take]
    exact Nat.min_eq_left h
  · show String.mk (s.data.take 45) = s
    rw [List.take_of_length_le h]

/-- C6 witness: a 50-character description is cut to 45 characters; a short
description is drawn unchanged. -/
theorem C6_description_truncation_witness :
    (pySlice45 (String.mk (List.replicate 50 'a'))).data.length = 45 ∧
    pySlice45 "Jahresgebühr Konto" = "Jahresgebühr Konto" :=
  ⟨C6_description_truncation.2.2.1 (String.mk (List.replicate 50 'a')) (by decide),
   C6_description_truncation.2.2.2 "Jahresgebühr Konto" (by decide)⟩

/-- C7: a run writes exactly one document, to the fixed default filename:
the trace ends in the single `save`, the first 116 primitives contain the 32
transaction-row amount cells and no balance cell, and the remainder contains
the single balance cell — so the balance line appears exactly once, after
the last transaction row. -/
theorem C7_single_document : ∀ today : String,
    defaultFilename = "ZKB_Sample_Statement_January_2026.pdf" ∧
    (create_zkb_statement today defaultFilename).countP Op.isSave = 1 ∧
    (create_zkb_statement today defaultFilename).getLast? = some (Op.save defaultFilename) ∧
    ((create_zkb_statement today defaultFilename).take 116).countP isRowAmountDraw = 32 ∧
    ((create_zkb_statement today defaultFilename).drop 116).countP isRowAmountDraw = 0 ∧
    ((create_zkb_statement today defaultFilename).take 116).countP isBalanceDraw = 0 ∧
    ((create_zkb_statement today defaultFilename).drop 116).countP isBalanceDraw = 1 :=
  fun _ => ⟨rfl, rfl, rfl, rfl, rfl, rfl, rfl⟩

/-- C8: two runs differ at most in the generation-timestamp text: the trace
of a run with timestamp `d2` is the trace of a run with timestamp `d1` with
only position 10 — the `Erstellt / Created:` string, at unchanged
coordinates — replaced. -/
theorem C8_idempotent_up_to_timestamp : ∀ d1 d2 : String,
    create_zkb_statement d2 defaultFilename =
      (create_zkb_statement d1 defaultFilename).set 10
        (Op.drawString (40 * pt) (height - 180 * pt) ("Erstellt / Created: " ++ d2)) ∧
    (create_zkb_statement d1 defaultFilename)[10]? =
      some (Op.drawString (40 * pt) (height - 180 * pt) ("Erstellt / Created: " ++ d1)) :=
  fun _ _ => ⟨rfl, rfl⟩

/-- C9 counterexample: the table does not start at cursor 622: the start
position is `height - 220 = 78980` units = 78980/127 ≈ 621.89 points. -/
theorem C9_cursor_622_counterexample : tableStartY ≠ 622 * pt ∧ tableStartY = 78980 :=
  ⟨by decide, by decide⟩

/-- C9 amended: with the table header at `height - 220` ≈ 621.89, first row
at ≈ 596.89, row height 15 and threshold 100, the page-break branch is never
taken: the loop emits no `showPage`, draws nothing below 100 points, emits
all 32 date cells on the one page, and leaves the cursor at
`firstRowY - 32·15` points. -/
theorem C9_no_page_break :
    loopOut.1.countP Op.isShowPage = 0 ∧
    loopOut.1.all (fun op => !Op.drawsBelow (100 * pt) op) = true ∧
    loopOut.1.countP isDateColumnDraw = 32 ∧
    loopOut.2 = firstRowY - 32 * (15 * pt) ∧
    firstRowY = 75805 :=
  ⟨by decide, by decide, by decide, by decide, by decide⟩

/-- C10: the stdout summary reports the same values as the document: the
count line shows the length of the fixed record list (32), and the income,
expense and balance lines carry the same numbers as the PDF footer
computation, in the same two-decimal apostrophe-grouped format with a CHF
prefix — the balance line literally embeds the PDF's `balance_str`. -/
theorem C10_stdout_summary :
    transactions.length = 32 ∧
    (summaryStdout defaultFilename)[3]? =
      some ("  Transactions: " ++ Nat.repr transactions.length) ∧
    (summaryStdout defaultFilename)[4]? =
      some ("  Total Income: " ++ pyReplaceCommaApos ("CHF " ++ pyFormatComma total_income)) ∧
    (summaryStdout defaultFilename)[5]? =
      some ("  Total Expenses: " ++ pyReplaceCommaApos ("CHF " ++ pyFormatComma total_expenses)) ∧
    (summaryStdout defaultFilename)[6]? =
      some ("  Final Balance: " ++ balance_str) ∧
    (summaryStdout defaultFilename)[0]? = some ("✅ Created: " ++ defaultFilename) :=
  ⟨by decide, by decide, by decide, by decide, by decide, by decide⟩

end ZKB
